import Mathlib

/-!
Verification of the feed-aggregation pipeline of the AI-news repository.

The development shallowly embeds the pure logic of the following source
files and proves the specified properties about the embedding:

* `src/services/rssService.ts`   — cache, relay fallback chain, RSS item
  normalization, global merge-and-sort (`fetchAllFeeds`);
* `src/services/arxivService.ts` — the specialized arXiv client;
* `src/services/dataLogger.ts`   — the recency filter
  (`isWithinTwoWeeks`, `filterRecentNews`);
* the realtime update service (`realtimeService`) — publish decision and
  exponential-backoff retry machine;
* the virtual-scroll hook (`useVirtualScroll`) — visible-window
  computation.

Modelling conventions:

* Machine time (`Date.now()`, timestamps in milliseconds) is `Int`.
* `new Date(s).getTime()` is modelled by a parameter
  `p : String → Option Int`: `some t` is a valid time value `t`, `none`
  is `NaN` (an invalid date).  Theorems are parametric in `p`; concrete
  witnesses use `parseISODate` below, which implements the ECMAScript
  Date Time String Format (the only input format whose parsing the
  ECMAScript standard actually specifies), restricted to the forms
  `YYYY-MM-DD` and `YYYY-MM-DDTHH:MM:SSZ` with years 0001–9999.  The
  empty string (a missing `pubDate` feed field) is an invalid date.
* Uninterpreted string-processing helpers of the source (`cleanText`,
  locale formatting, arXiv id extraction and description assembly) are
  function parameters: they only produce field contents and never decide
  control flow, which is what the claims are about.
* Async control flow is sequentialized: each `fetchRSSFeed` call is a
  pure function of the cache state, the current time, and an oracle
  listing what each relay attempt would yield.
-/

/-- Normalized news record (`NewsItem` of `src/types/news.ts`).  The
optional `category` is modelled as a plain string (`""` for absent); no
claim depends on its optionality. -/
structure NewsItem where
  title : String
  description : String
  link : String
  pubDate : String
  source : String
  category : String
deriving DecidableEq, Repr

/-- Static source configuration (`NewsSource` of `src/types/news.ts`). -/
structure NewsSource where
  name : String
  url : String
  category : String
deriving DecidableEq, Repr

/-- The text fields extracted from one `<item>` element of an RSS
document by `getElementText` (which yields `""` when the tag is absent
or empty). -/
structure RssEntry where
  title : String
  description : String
  link : String
  pubDate : String
deriving DecidableEq, Repr

/-- The fields extracted from one `<entry>` element of an arXiv API
response by `parseArxivXML`. -/
structure ArxivEntry where
  id : String
  title : String
  summary : String
  published : String
  authors : List String
  categories : List String
deriving DecidableEq, Repr

/-! ### A concrete model of `Date` parsing

`parseISODate` implements the ECMAScript Date Time String Format on the
subset `YYYY-MM-DD` / `YYYY-MM-DDTHH:MM:SSZ` (proleptic Gregorian
calendar, milliseconds since the Unix epoch, no leap seconds — exactly
the ECMAScript time-value mapping).  Everything else, in particular the
empty string, is an invalid date (`none`, i.e. `NaN`). -/

/-- Value of a decimal digit character. -/
def digitVal (c : Char) : Option Nat :=
  if '0' ≤ c ∧ c ≤ '9' then some (c.toNat - 48) else none

/-- Gregorian leap-year rule. -/
def isLeapYear (y : Nat) : Bool :=
  (y % 4 = 0 && y % 100 ≠ 0) || y % 400 = 0

/-- Number of days of month `m` (1–12) of year `y`. -/
def daysInMonth (y m : Nat) : Nat :=
  match m with
  | 1 => 31
  | 2 => if isLeapYear y then 29 else 28
  | 3 => 31
  | 4 => 30
  | 5 => 31
  | 6 => 30
  | 7 => 31
  | 8 => 31
  | 9 => 30
  | 10 => 31
  | 11 => 30
  | 12 => 31
  | _ => 0

/-- Days from 1970-01-01 to `y`-`m`-`d` in the proleptic Gregorian
calendar (standard civil-from-days arithmetic), for `1 ≤ y`. -/
def daysFromCivil (y m d : Nat) : Int :=
  let y1 := if m ≤ 2 then y - 1 else y
  let era := y1 / 400
  let yoe := y1 - era * 400
  let mp := (m + 9) % 12
  let doy := (153 * mp + 2) / 5 + d - 1
  let doe := yoe * 365 + yoe / 4 - yoe / 100 + doy
  (era * 146097 + doe : Int) - 719468

/-- Epoch milliseconds of a civil date-time (all fields range-checked by
the parser below). -/
def epochMs (y mo d h mi se : Nat) : Int :=
  (daysFromCivil y mo d * 86400 + (h * 3600 + mi * 60 + se : Nat)) * 1000

/-- Range-check the parsed fields and produce the time value, as the
ECMAScript parser does (out-of-range fields, including a day that does
not exist in the given month, make the whole string an invalid date). -/
def mkDateMs (y mo d h mi se : Nat) : Option Int :=
  if 1 ≤ y ∧ 1 ≤ mo ∧ mo ≤ 12 ∧ 1 ≤ d ∧ d ≤ daysInMonth y mo ∧
      h ≤ 23 ∧ mi ≤ 59 ∧ se ≤ 59 then
    some (epochMs y mo d h mi se)
  else
    none

/-- ECMAScript `Date.parse` (hence `new Date(s).getTime()`) on the
specified Date Time String Format subset; `none` models `NaN`. -/
def parseISODate (s : String) : Option Int :=
  match s.data with
  | [y1, y2, y3, y4, '-', m1, m2, '-', d1, d2] => do
      let a ← digitVal y1
      let b ← digitVal y2
      let c ← digitVal y3
      let d ← digitVal y4
      let e ← digitVal m1
      let f ← digitVal m2
      let g ← digitVal d1
      let h ← digitVal d2
      mkDateMs (((a * 10 + b) * 10 + c) * 10 + d) (e * 10 + f) (g * 10 + h) 0 0 0
  | [y1, y2, y3, y4, '-', m1, m2, '-', d1, d2, 'T',
     h1, h2, ':', n1, n2, ':', s1, s2, 'Z'] => do
      let a ← digitVal y1
      let b ← digitVal y2
      let c ← digitVal y3
      let d ← digitVal y4
      let e ← digitVal m1
      let f ← digitVal m2
      let g ← digitVal d1
      let h ← digitVal d2
      let p ← digitVal h1
      let q ← digitVal h2
      let r ← digitVal n1
      let t ← digitVal n2
      let u ← digitVal s1
      let v ← digitVal s2
      mkDateMs (((a * 10 + b) * 10 + c) * 10 + d) (e * 10 + f) (g * 10 + h)
        (p * 10 + q) (r * 10 + t) (u * 10 + v)
  | _ => none

example : parseISODate "1970-01-01" = some 0 := by decide
example : parseISODate "2025-10-12T00:00:00Z" = some 1760227200000 := by decide
example : parseISODate "" = none := by decide
example : parseISODate "2025-02-30" = none := by decide

/-! ### A model of `Array.prototype.sort`

ECMAScript requires `Array.prototype.sort` to be stable and, for a
consistent comparator, to produce a comparator-sorted permutation; for
an inconsistent comparator (one that returns `NaN`, as the source's
date comparator does on unparseable dates) the resulting order is
implementation-defined.  We model it as a stable insertion sort driven
by `le x y`, meaning "`x` may stay in front of `y`", i.e.
`¬(comparator(x, y) > 0)` — with the refinement that a `NaN` comparator
value keeps the original order. -/

/-- Insert `x` in front of the first element `y` of `l` with
`le x y = true`. -/
def insertLe {α : Type} (le : α → α → Bool) (x : α) : List α → List α
  | [] => [x]
  | y :: ys => if le x y then x :: y :: ys else y :: insertLe le x ys

/-- Stable insertion sort: a model of `Array.prototype.sort`. -/
def jsSortBy {α : Type} (le : α → α → Bool) : List α → List α
  | [] => []
  | x :: xs => insertLe le x (jsSortBy le xs)

theorem mem_insertLe {α : Type} (le : α → α → Bool) (x a : α) :
    ∀ l : List α, a ∈ insertLe le x l ↔ a = x ∨ a ∈ l := by
  intro l
  induction l with
  | nil => simp [insertLe]
  | cons y ys ih =>
      simp only [insertLe]
      split
      · simp [List.mem_cons]
      · simp only [List.mem_cons, ih]
        tauto

theorem chain'_insertLe {α : Type} (le : α → α → Bool) (x : α) :
    ∀ l : List α, List.Chain' (fun a b => le a b = true) l →
      (∀ y ∈ l, le x y = true ∨ le y x = true) →
      List.Chain' (fun a b => le a b = true) (insertLe le x l) := by
  intro l
  induction l with
  | nil => intro _ _; simp [insertLe]
  | cons y ys ih =>
      intro hl htot
      simp only [insertLe]
      split
      · rename_i hxy
        exact List.chain'_cons.mpr ⟨hxy, hl⟩
      · rename_i hxy
        have hyx : le y x = true := by
          rcases htot y (List.mem_cons_self y ys) with h | h
          · exact absurd h hxy
          · exact h
        have htail : List.Chain' (fun a b => le a b = true) (insertLe le x ys) :=
          ih hl.tail (fun z hz => htot z (List.mem_cons_of_mem y hz))
        cases ys with
        | nil => exact List.chain'_cons.mpr ⟨hyx, List.chain'_singleton x⟩
        | cons z zs =>
            simp only [insertLe]
            simp only [insertLe] at htail
            split
            · rename_i hxz
              exact List.chain'_cons.mpr ⟨hyx, by simpa [insertLe, hxz] using htail⟩
            · rename_i hxz
              exact List.chain'_cons.mpr
                ⟨List.chain'_cons.mp hl |>.1,
                 by simpa [insertLe, hxz] using htail⟩

theorem mem_jsSortBy {α : Type} (le : α → α → Bool) (a : α) :
    ∀ l : List α, a ∈ jsSortBy le l ↔ a ∈ l := by
  intro l
  induction l with
  | nil => simp [jsSortBy]
  | cons x xs ih => simp [jsSortBy, mem_insertLe, ih]

/-- For a total `le`, `jsSortBy` output is `le`-chained. -/
theorem chain'_jsSortBy {α : Type} (le : α → α → Bool)
    (htot : ∀ a b : α, le a b = true ∨ le b a = true) :
    ∀ l : List α, List.Chain' (fun a b => le a b = true) (jsSortBy le l) := by
  intro l
  induction l with
  | nil => simp [jsSortBy]
  | cons x xs ih =>
      exact chain'_insertLe le x (jsSortBy le xs) ih (fun y _ => htot x y)

/-! ### `src/services/rssService.ts` -/

/-- `CACHE_DURATION = 5 * 60 * 1000` (5-minute TTL), in milliseconds. -/
def CACHE_DURATION : Int := 5 * 60 * 1000

/-- One cache slot: `{ data: NewsItem[], timestamp: number }`. -/
structure CacheEntry where
  data : List NewsItem
  timestamp : Int
deriving DecidableEq, Repr

/-- The `Map<string, CacheEntry>` of the service, as an association list
whose first binding for a key is the current one. -/
def Cache : Type := List (String × CacheEntry)

/-- `Map.get`: the most recent binding of `key`. -/
def cacheGet (cache : Cache) (key : String) : Option CacheEntry :=
  (List.find? (fun e => e.1 == key) cache).map (·.2)

/-- `setCachedData(key, data)`: `Map.set` with `timestamp: Date.now()`;
the old binding (if any) is overridden. -/
def setCachedData (cache : Cache) (now : Int) (key : String)
    (data : List NewsItem) : Cache :=
  (key, ⟨data, now⟩) :: List.filter (fun e => !(e.1 == key)) cache

/-- `getCachedData(key)`: the cached items when a binding exists and its
age is strictly below `CACHE_DURATION`, else `null`. -/
def getCachedData (cache : Cache) (now : Int) (key : String) :
    Option (List NewsItem) :=
  match cacheGet cache key with
  | some e => if now - e.timestamp < CACHE_DURATION then some e.data else none
  | none => none

/-- `formatDate`: empty input stays empty, any other date string is
rendered by the (uninterpreted) `toLocaleString` formatter `fmt`. -/
def formatDate (fmt : String → String) (dateString : String) : String :=
  if dateString = "" then "" else fmt dateString

/-- The `NewsItem` pushed by `parseRSSItems` for one accepted entry. -/
def rssItemOf (clean fmt : String → String) (source : NewsSource)
    (e : RssEntry) : NewsItem :=
  { title := clean e.title
    description := clean e.description
    link := e.link
    pubDate := formatDate fmt e.pubDate
    source := source.name
    category := source.category }

/-- `parseRSSItems(xmlDoc, source)`: walk the `<item>` elements in
document order and push a normalized item for each entry whose `title`
and `link` texts are both truthy (non-empty). -/
def parseRSSItems (clean fmt : String → String) (source : NewsSource) :
    List RssEntry → List NewsItem
  | [] => []
  | e :: es =>
      if e.title ≠ "" ∧ e.link ≠ "" then
        rssItemOf clean fmt source e :: parseRSSItems clean fmt source es
      else
        parseRSSItems clean fmt source es

/-- What one relay (proxy) attempt of the fallback loop can come to:

* `httpError s` — `response.ok` false with status `s`; status 429 takes
  the `continue` branch, any other status raises and is caught by the
  surrounding `catch`, so both continue with the next relay;
* `networkError` — `fetchWithTimeout`, body reading or XML handling
  threw; caught, continue with the next relay;
* `success doc` — an OK response whose body parsed into the `<item>`
  entries `doc` (possibly zero of them). -/
inductive RelayOutcome where
  | httpError (status : Nat)
  | networkError
  | success (doc : List RssEntry)
deriving DecidableEq, Repr

/-- The items one relay attempt contributes: the normalizer output on a
successful response, nothing on any failure. -/
def attemptItems (clean fmt : String → String) (source : NewsSource) :
    RelayOutcome → List NewsItem
  | RelayOutcome.success doc => parseRSSItems clean fmt source doc
  | _ => []

/-- The `for (let i = 0; ...)` relay-fallback loop of `fetchRSSFeed`:
returns the produced items, the cache afterwards, and how many relays
were contacted.  The first relay whose response parses to one or more
items stores them in the cache and returns them at once; every other
outcome falls through to the next relay; exhaustion returns `[]`
without touching the cache. -/
def relayChain (clean fmt : String → String) (source : NewsSource)
    (now : Int) (cache : Cache) :
    List RelayOutcome → List NewsItem × Cache × Nat
  | [] => ([], cache, 0)
  | o :: rest =>
      match o with
      | RelayOutcome.success doc =>
          let items := parseRSSItems clean fmt source doc
          if items.length > 0 then
            (items, setCachedData cache now source.url items, 1)
          else
            let r := relayChain clean fmt source now cache rest
            (r.1, r.2.1, r.2.2 + 1)
      | _ =>
          let r := relayChain clean fmt source now cache rest
          (r.1, r.2.1, r.2.2 + 1)

/-- `fetchRSSFeed(source)` as a pure transition: from the cache state,
the clock, the oracle `arxivResult` (what
`arxivService.fetchRecentPapers` would resolve to) and the relay oracle
`relays`, to `(returned items, new cache, network attempts made)`.
Mirrors the source order: fresh-cache short circuit, then
`ARXIV_API_SOURCE` sentinel delegation (cached unconditionally), then
the relay fallback chain. -/
def fetchRSSFeed (clean fmt : String → String) (source : NewsSource)
    (now : Int) (cache : Cache) (arxivResult : List NewsItem)
    (relays : List RelayOutcome) : List NewsItem × Cache × Nat :=
  match getCachedData cache now source.url with
  | some cachedData => (cachedData, cache, 0)
  | none =>
      if source.url = "ARXIV_API_SOURCE" then
        (arxivResult, setCachedData cache now source.url arxivResult, 1)
      else
        relayChain clean fmt source now cache relays

/-- The sort comparator of `fetchAllFeeds` is
`(a, b) => dateB.getTime() - dateA.getTime()`; `jsLe p a b` states that
`a` may stay in front of `b`, i.e. the comparator value is not positive
— where a `NaN` comparator value (either date unparseable) keeps the
original order. -/
def jsLe (p : String → Option Int) (a b : NewsItem) : Bool :=
  match p a.pubDate, p b.pubDate with
  | some ta, some tb => decide (tb - ta ≤ 0)
  | _, _ => true

/-- `fetchAllFeeds(sources)`: concatenate the fulfilled per-source
results in source order (`Promise.allSettled`; `none` is a rejected
promise) and sort by parsed date, newest first. -/
def fetchAllFeeds (p : String → Option Int)
    (results : List (Option (List NewsItem))) : List NewsItem :=
  jsSortBy (jsLe p) (List.flatten (List.filterMap id results))

/-- The sort invariant claimed of snapshots: each adjacent pair has
parsed (valid) publish timestamps in non-increasing order. -/
def tsGE (p : String → Option Int) (a b : NewsItem) : Bool :=
  match p a.pubDate, p b.pubDate with
  | some ta, some tb => decide (tb ≤ ta)
  | _, _ => false

/-- Descending-by-parsed-date sortedness of a snapshot. -/
def sortedByDateDesc (p : String → Option Int) (l : List NewsItem) : Prop :=
  List.Chain' (fun a b => tsGE p a b = true) l

/-! ### `src/services/arxivService.ts` -/

/-- The `NewsItem` pushed by `parseArxivXML` for one accepted entry:
link built from the extracted arXiv id, description assembled from
summary, authors and categories, category mapped through the fixed
taxonomy lookup.  The text helpers (`cleanText`, `extractArxivId`,
`formatDescription`, `formatDate`-locale part, `mapToAppCategory`) are
uninterpreted parameters. -/
def arxivItemOf (clean extractId fmtA : String → String)
    (mkDesc : String → List String → List String → String)
    (mapCat : List String → String) (e : ArxivEntry) : NewsItem :=
  { title := clean e.title
    description := mkDesc e.summary e.authors e.categories
    link := "https://arxiv.org/abs/" ++ extractId e.id
    pubDate := formatDate fmtA e.published
    source := "arXiv"
    category := mapCat e.categories }

/-- `parseArxivXML(xmlContent)`: walk the `<entry>` elements and push a
paper for each entry whose `title` and `id` texts are both truthy
(non-empty); the per-entry `try/catch` never fires in this pure model. -/
def parseArxivXML (clean extractId fmtA : String → String)
    (mkDesc : String → List String → List String → String)
    (mapCat : List String → String) :
    List ArxivEntry → List NewsItem
  | [] => []
  | e :: es =>
      if e.title ≠ "" ∧ e.id ≠ "" then
        arxivItemOf clean extractId fmtA mkDesc mapCat e ::
          parseArxivXML clean extractId fmtA mkDesc mapCat es
      else
        parseArxivXML clean extractId fmtA mkDesc mapCat es

/-! ### `src/services/dataLogger.ts` (recency filter)

The source computes `twoWeeksAgo` by `setDate(getDate() - 14)`, i.e.
calendar-day subtraction; in a fixed-offset timezone (the deployment
locale has no daylight-saving time) this is exactly
`now - 14 * 86400000` milliseconds, which is how it is modelled. -/

/-- Fourteen days in milliseconds. -/
def fourteenDaysMs : Int := 14 * 86400000

/-- `isWithinTwoWeeks(dateString)`: parse the date; an invalid date is
rejected (`isNaN` guard, fail-closed); otherwise keep exactly when
`articleDate >= twoWeeksAgo`.  The surrounding `try/catch` is dead in
this pure model since the `Date` constructor does not throw. -/
def isWithinTwoWeeks (p : String → Option Int) (now : Int)
    (dateString : String) : Bool :=
  match p dateString with
  | none => false
  | some t => decide (now - fourteenDaysMs ≤ t)

/-- `filterRecentNews(news)`: keep the items within two weeks. -/
def filterRecentNews (p : String → Option Int) (now : Int)
    (news : List NewsItem) : List NewsItem :=
  List.filter (fun item => isWithinTwoWeeks p now item.pubDate) news

/-! ### The realtime update service (`realtimeService`) -/

/-- `maxRetries = 5`. -/
def maxRetries : Nat := 5

/-- `baseRetryDelay = 1000` (milliseconds). -/
def baseRetryDelay : Nat := 1000

/-- The observable loop state:

* `retryCount` — `connectionStatus.retryCount`;
* `connected` — `connectionStatus.connected`;
* `intervalActive` — whether the recurring `setInterval` timer is
  installed (`updateInterval !== null`). -/
structure RTState where
  retryCount : Nat
  connected : Bool
  intervalActive : Bool
deriving DecidableEq, Repr

/-- `hasNewNewsItems(newsItems)`: `false` on an empty snapshot, else
compare `Math.max` of the parsed item dates against `lastNewsUpdate`.
`Math.max` over the spread returns `NaN` as soon as one date is
unparseable, and `NaN > x` is false, so the unparseable case yields
`false`.  `newsTimesMax` is that `NaN`-propagating maximum. -/
def newsTimesMax (p : String → Option Int) : List NewsItem → Option Int
  | [] => none
  | [a] => p a.pubDate
  | a :: rest =>
      match p a.pubDate, newsTimesMax p rest with
      | some t, some m => some (max t m)
      | _, _ => none

/-- See `newsTimesMax`. -/
def hasNewNewsItems (p : String → Option Int) (lastNewsUpdate : Int)
    (newsItems : List NewsItem) : Bool :=
  if newsItems.length = 0 then false
  else
    match newsTimesMax p newsItems with
    | some latestNewsDate => decide (lastNewsUpdate < latestNewsDate)
    | none => false

/-- The notification condition of `performNewsUpdate`:
`hasNewNews || this.lastNewsUpdate === 0`. -/
def publishDecision (p : String → Option Int) (lastNewsUpdate : Int)
    (newsItems : List NewsItem) : Bool :=
  hasNewNewsItems p lastNewsUpdate newsItems || decide (lastNewsUpdate = 0)

/-- The successful-fetch part of one `performNewsUpdate` cycle: whether
a `news_update` event is published, and the `lastNewsUpdate` value
afterwards (set to the wall-clock `updateTime` exactly when
publishing). -/
def performNewsUpdate (p : String → Option Int) (now lastNewsUpdate : Int)
    (newsItems : List NewsItem) : Bool × Int :=
  if publishDecision p lastNewsUpdate newsItems then (true, now)
  else (false, lastNewsUpdate)

/-- The failure path of one cycle: `updateConnectionStatus(false, msg)`
keeps `retryCount`, then `handleRetry` either schedules a one-off retry
after `baseRetryDelay * 2 ^ retryCount` (returned as `some delay`) or —
once `retryCount` has reached `maxRetries` — calls
`stopRealtimeUpdates`, which clears the recurring timer and sets
`connected` to `false` (`none`: no retry scheduled). -/
def handleRetry (s : RTState) : RTState × Option Nat :=
  let s1 : RTState := { s with connected := false }
  if s1.retryCount < maxRetries then
    (s1, some (baseRetryDelay * 2 ^ s1.retryCount))
  else
    ({ s1 with intervalActive := false }, none)

/-- When a scheduled retry fires, its callback increments `retryCount`
and runs `performNewsUpdate` again. -/
def retryFire (s : RTState) : RTState :=
  { s with retryCount := s.retryCount + 1 }

/-- `n` consecutive failing update cycles, starting in state `s`:
returns the final state and the list of retry delays scheduled, in
order.  A cycle whose `handleRetry` schedules a retry is followed (after
the delay) by the retry cycle, which fails again; a cycle that stops the
loop ends the run. -/
def consecutiveFailures : Nat → RTState → RTState × List Nat
  | 0, s => (s, [])
  | n + 1, s =>
      match handleRetry s with
      | (s1, some d) =>
          let r := consecutiveFailures n (retryFire s1)
          (r.1, d :: r.2)
      | (s1, none) => (s1, [])

/-! ### The virtual-scroll hook (`useVirtualScroll`) -/

/-- The `itemOffsets` prefix-sum table: `offsets[0] = 0`,
`offsets[i+1] = offsets[i] + getItemSize(i)`, where `sizes` is the
effective `getItemSize` (measured size, else estimator, else the
`itemHeight` default).  The model is total over `Nat` where the source
array stops at `itemCount`; every claim evaluation stays within
bounds. -/
def itemOffsets (sizes : Nat → Nat) : Nat → Nat
  | 0 => 0
  | i + 1 => itemOffsets sizes i + sizes i

/-- The `while (start <= end)` binary search of the visible-range
computation, fuelled (the source loop always terminates; the fuel used
below is large enough to be unreachable).  Returns the `start` value
the loop leaves behind: on `break`, the intersecting index `mid`;
otherwise the final `start`. -/
def findStartIndex (sizes : Nat → Nat) (visibleStart visibleEnd : Int) :
    Nat → Int → Int → Int
  | 0, start, _ => start
  | fuel + 1, start, stop =>
      if start ≤ stop then
        let mid := (start + stop) / 2
        let m := mid.toNat
        if (itemOffsets sizes m + sizes m : Int) ≤ visibleStart then
          findStartIndex sizes visibleStart visibleEnd fuel (mid + 1) stop
        else if visibleEnd ≤ itemOffsets sizes m then
          findStartIndex sizes visibleStart visibleEnd fuel start (mid - 1)
        else mid
      else start

/-- The `while (endIdx < itemCount && accumulatedHeight < ...)`
accumulation loop finding the raw end index. -/
def findEndIndex (sizes : Nat → Nat) (itemCount : Nat) (limit : Int) :
    Nat → Nat → Int → Nat
  | 0, endIdx, _ => endIdx
  | fuel + 1, endIdx, acc =>
      if endIdx < itemCount ∧ acc < limit then
        findEndIndex sizes itemCount limit fuel (endIdx + 1) (acc + sizes endIdx)
      else endIdx

/-- The `{ startIndex, endIndex }` memo of `useVirtualScroll`: for a
non-empty list, binary-search an index whose extent intersects
`[scrollOffset, scrollOffset + containerSize)`, move `overscan` items
back (clamped at 0), accumulate sizes from there until reaching
`visibleEnd + overscan * itemHeight`, then add `overscan` more indices
(clamped at `itemCount - 1`). -/
def useVirtualScrollRange (sizes : Nat → Nat)
    (itemHeight itemCount containerSize scrollOffset overscan : Nat) :
    Nat × Nat :=
  if itemCount = 0 then (0, 0)
  else
    let visibleStart : Int := scrollOffset
    let visibleEnd : Int := scrollOffset + containerSize
    let found := findStartIndex sizes visibleStart visibleEnd
      (itemCount + 1) 0 (itemCount - 1 : Nat)
    let startIdx : Nat := (max 0 (found - overscan)).toNat
    let endIdx := findEndIndex sizes itemCount
      (visibleEnd + overscan * itemHeight) (itemCount + 1) startIdx
      (itemOffsets sizes startIdx)
    (startIdx, min (itemCount - 1) (endIdx + overscan))

set_option maxRecDepth 100000 in
example :
    useVirtualScrollRange (fun _ => 100) 100 1000 600 0 3 = (0, 12) := by
  decide

/-! ### Helper lemmas -/

/-- A relay attempt yielding no items falls through to the next relay,
adding one contacted relay and changing nothing else. -/
theorem relayChain_skip (clean fmt : String → String) (source : NewsSource)
    (now : Int) (cache : Cache) (o : RelayOutcome) (rest : List RelayOutcome)
    (h : attemptItems clean fmt source o = []) :
    relayChain clean fmt source now cache (o :: rest) =
      ((relayChain clean fmt source now cache rest).1,
       (relayChain clean fmt source now cache rest).2.1,
       (relayChain clean fmt source now cache rest).2.2 + 1) := by
  cases o with
  | success doc =>
      simp only [attemptItems] at h
      simp [relayChain, h]
  | httpError s => simp [relayChain]
  | networkError => simp [relayChain]

/-- The first relay attempt yielding one or more items caches and
returns them at once: exactly one relay was contacted. -/
theorem relayChain_hit (clean fmt : String → String) (source : NewsSource)
    (now : Int) (cache : Cache) (o : RelayOutcome) (rest : List RelayOutcome)
    (h : attemptItems clean fmt source o ≠ []) :
    relayChain clean fmt source now cache (o :: rest) =
      (attemptItems clean fmt source o,
       setCachedData cache now source.url (attemptItems clean fmt source o),
       1) := by
  cases o with
  | success doc =>
      simp only [attemptItems] at h ⊢
      have hlen : (parseRSSItems clean fmt source doc).length > 0 :=
        List.length_pos.mpr h
      simp [relayChain, hlen]
  | httpError s => simp [attemptItems] at h
  | networkError => simp [attemptItems] at h

/-- If every relay attempt fails or yields zero items, the chain
returns `[]`, leaves the cache untouched, and has contacted every
relay. -/
theorem relayChain_allEmpty (clean fmt : String → String)
    (source : NewsSource) (now : Int) (cache : Cache) :
    ∀ relays : List RelayOutcome,
      (∀ o ∈ relays, attemptItems clean fmt source o = []) →
      relayChain clean fmt source now cache relays =
        ([], cache, relays.length) := by
  intro relays
  induction relays with
  | nil => intro _; simp [relayChain]
  | cons o rest ih =>
      intro hall
      rw [relayChain_skip clean fmt source now cache o rest
        (hall o (List.mem_cons_self o rest))]
      rw [ih (fun o' ho' => hall o' (List.mem_cons_of_mem o ho'))]
      simp

/-- A non-empty relay chain contacts at least one relay. -/
theorem relayChain_attempts_pos (clean fmt : String → String)
    (source : NewsSource) (now : Int) (cache : Cache) (o : RelayOutcome)
    (rest : List RelayOutcome) :
    1 ≤ (relayChain clean fmt source now cache (o :: rest)).2.2 := by
  by_cases h : attemptItems clean fmt source o = []
  · rw [relayChain_skip clean fmt source now cache o rest h]
    exact Nat.le_add_left 1 _
  · rw [relayChain_hit clean fmt source now cache o rest h]

/-- `Map.set` followed by `Map.get` of the same key. -/
theorem cacheGet_setCachedData (cache : Cache) (now : Int) (key : String)
    (data : List NewsItem) :
    cacheGet (setCachedData cache now key data) key = some ⟨data, now⟩ := by
  simp [cacheGet, setCachedData, List.find?]

/-- A small concrete item, used by concrete witnesses below. -/
def mkItem (title pubDate : String) : NewsItem :=
  ⟨title, "", "", pubDate, "", ""⟩

/-- The date comparator ordering is total (an unparseable date keeps
the original order against anything). -/
theorem jsLe_total (p : String → Option Int) (a b : NewsItem) :
    jsLe p a b = true ∨ jsLe p b a = true := by
  unfold jsLe
  cases ha : p a.pubDate with
  | none => left; rfl
  | some ta =>
      cases hb : p b.pubDate with
      | none => left; rfl
      | some tb =>
          simp only [decide_eq_true_eq]
          omega

/-- On a list whose dates all parse, a comparator-chained list is
chained by ≥ of the parsed timestamps. -/
theorem chain_tsGE_of_chain_jsLe (p : String → Option Int) :
    ∀ m : List NewsItem, (∀ it ∈ m, (p it.pubDate).isSome) →
      List.Chain' (fun a b => jsLe p a b = true) m →
      List.Chain' (fun a b => tsGE p a b = true) m := by
  intro m
  induction m with
  | nil => intro _ _; exact List.chain'_nil
  | cons a rest ih =>
      intro hparse hc
      cases rest with
      | nil => exact List.chain'_singleton a
      | cons b rest2 =>
          obtain ⟨hab, htail⟩ := List.chain'_cons.mp hc
          obtain ⟨ta, hta⟩ := Option.isSome_iff_exists.mp
            (hparse a (List.mem_cons_self a _))
          obtain ⟨tb, htb⟩ := Option.isSome_iff_exists.mp
            (hparse b (List.mem_cons_of_mem a (List.mem_cons_self b _)))
          refine List.chain'_cons.mpr ⟨?_, ih (fun it hit =>
            hparse it (List.mem_cons_of_mem a hit)) htail⟩
          unfold jsLe at hab
          unfold tsGE
          rw [hta, htb] at hab ⊢
          simp only [decide_eq_true_eq] at hab ⊢
          omega

/-! ### Claim C2 — retry ceiling of the Realtime Update Loop -/

/-- Claim C2: starting from a healthy loop (`retryCount = 0`, connected,
recurring timer installed), six consecutive failing cycles schedule
exactly five one-off retries, delayed `1000 * 2 ^ k` milliseconds for
`k = 0, …, 4`; the sixth failure schedules no retry and stops the loop
(timer cleared, `connected = false`), and further failures change
nothing: the stopped state is terminal. -/
theorem retry_ceiling_trace :
    consecutiveFailures 6 ⟨0, true, true⟩ =
      (⟨5, false, false⟩, [1000, 2000, 4000, 8000, 16000])
    ∧ consecutiveFailures 7 ⟨0, true, true⟩ =
      (⟨5, false, false⟩, [1000, 2000, 4000, 8000, 16000])
    ∧ handleRetry ⟨5, false, false⟩ = (⟨5, false, false⟩, none) := by
  decide

/-! ### Claim C6 — virtual-scroll window -/

set_option maxRecDepth 100000 in
/-- Claim C6 counterexample: for 1000 items of uniform height 100px,
container 600px, overscan 3, the window at `scrollOffset = 0` is not
`[0, 9]`. -/
theorem virtual_window_counterexample :
    useVirtualScrollRange (fun _ => 100) 100 1000 600 0 3 ≠ (0, 9) := by
  decide

set_option maxRecDepth 100000 in
/-- Claim C6 as amended: in that configuration the window at
`scrollOffset = 0` is exactly `[0, 12]` and at `scrollOffset = 5000`
exactly `[50, 62]`: after the binary search lands on an intersecting
index (not necessarily the first one), the start is that index minus
`overscan` clamped at 0, while the end accumulates item sizes until
passing `scrollOffset + containerHeight + overscan * itemHeight` and
then adds `overscan` further indices clamped at `itemCount - 1` — the
end is thus expanded by `overscan` twice, not once. -/
theorem virtual_window_actual :
    useVirtualScrollRange (fun _ => 100) 100 1000 600 0 3 = (0, 12)
    ∧ useVirtualScrollRange (fun _ => 100) 100 1000 600 5000 3 = (50, 62) := by
  constructor
  · decide
  · decide

/-! ### Claim C1 — snapshot sort invariant -/

/-- Claim C1 counterexample: a snapshot produced by `fetchAllFeeds`
from items whose `pubDate` is unparseable (here `""`, the value the
normalizer stores when a feed entry has no `pubDate`) is not
descending-by-parsed-date: the comparator evaluates to `NaN` and the
claimed pairwise inequality has no valid timestamps to compare. -/
theorem snapshot_sort_counterexample :
    fetchAllFeeds parseISODate [some [mkItem "a" "", mkItem "b" ""]] =
      [mkItem "a" "", mkItem "b" ""]
    ∧ ¬ sortedByDateDesc parseISODate
        (fetchAllFeeds parseISODate [some [mkItem "a" "", mkItem "b" ""]]) := by
  have h1 : fetchAllFeeds parseISODate [some [mkItem "a" "", mkItem "b" ""]] =
      [mkItem "a" "", mkItem "b" ""] := by decide
  refine ⟨h1, ?_⟩
  rw [h1]
  intro h
  have h2 := List.chain'_pair.mp h
  simp [tsGE, mkItem, parseISODate] at h2

/-- Claim C1 as amended: every snapshot produced by `fetchAllFeeds` all
of whose items carry a parseable `publishedAt` is sorted in descending
chronological order (`items[i]` at least as recent as `items[i+1]`);
snapshots containing an item with an unparseable date need not be. -/
theorem snapshot_sorted_of_parseable (p : String → Option Int)
    (results : List (Option (List NewsItem)))
    (hparse : ∀ it ∈ List.flatten (List.filterMap id results),
      (p it.pubDate).isSome) :
    sortedByDateDesc p (fetchAllFeeds p results) := by
  unfold sortedByDateDesc fetchAllFeeds
  apply chain_tsGE_of_chain_jsLe
  · intro it hit
    exact hparse it ((mem_jsSortBy (jsLe p) it _).mp hit)
  · exact chain'_jsSortBy (jsLe p) (jsLe_total p) _

/-- Witness for `snapshot_sorted_of_parseable` at a concrete snapshot
of two dated items arriving in ascending order. -/
theorem snapshot_sorted_of_parseable_witness :
    (∀ it ∈ List.flatten (List.filterMap id
        [some [mkItem "old" "2025-10-01", mkItem "new" "2025-10-11"]]),
      (parseISODate it.pubDate).isSome)
    ∧ sortedByDateDesc parseISODate (fetchAllFeeds parseISODate
        [some [mkItem "old" "2025-10-01", mkItem "new" "2025-10-11"]]) :=
  ⟨by decide,
   snapshot_sorted_of_parseable parseISODate
     [some [mkItem "old" "2025-10-01", mkItem "new" "2025-10-11"]]
     (by decide)⟩

/-! ### Claim C3 — relay fallback ordering -/

/-- Claim C3: within one `fetchRSSFeed` call for a non-sentinel source
(cache miss), the relays are attempted strictly in configured order:
all relays before the first one whose response parses to one or more
items are contacted and skipped (429, thrown error or zero items
alike), that first productive relay's items are returned at once, and
the number of contacted relays is its position plus one — no later
relay is ever contacted. -/
theorem relay_fallback_first_success (clean fmt : String → String)
    (source : NewsSource) (now : Int) (cache : Cache)
    (arxivResult : List NewsItem) (pre : List RelayOutcome)
    (o : RelayOutcome) (post : List RelayOutcome)
    (hmiss : getCachedData cache now source.url = none)
    (hsent : source.url ≠ "ARXIV_API_SOURCE")
    (hpre : ∀ o' ∈ pre, attemptItems clean fmt source o' = [])
    (ho : attemptItems clean fmt source o ≠ []) :
    fetchRSSFeed clean fmt source now cache arxivResult (pre ++ o :: post) =
      (attemptItems clean fmt source o,
       setCachedData cache now source.url (attemptItems clean fmt source o),
       pre.length + 1) := by
  unfold fetchRSSFeed
  rw [hmiss]
  simp only [hsent, if_false, reduceIte]
  induction pre with
  | nil => simpa using relayChain_hit clean fmt source now cache o post ho
  | cons q qre ih =>
      rw [List.cons_append,
        relayChain_skip clean fmt source now cache q (qre ++ o :: post)
          (hpre q (List.mem_cons_self q qre))]
      rw [ih (fun o' ho' => hpre o' (List.mem_cons_of_mem q ho'))]
      simp [List.length_cons]

/-- Witness for `relay_fallback_first_success`: three relays, the first
rate-limited with HTTP 429, the second parsing to one item, the third
also productive — only the first two are contacted and the second's
item is returned and cached. -/
theorem relay_fallback_first_success_witness :
    (getCachedData [] 0 "https://feed" = none
      ∧ "https://feed" ≠ "ARXIV_API_SOURCE"
      ∧ (∀ o' ∈ [RelayOutcome.httpError 429],
          attemptItems id id ⟨"n", "https://feed", "c"⟩ o' = [])
      ∧ attemptItems id id ⟨"n", "https://feed", "c"⟩
          (RelayOutcome.success [⟨"T", "D", "L", "P"⟩]) ≠ [])
    ∧ fetchRSSFeed id id ⟨"n", "https://feed", "c"⟩ 0 [] []
        ([RelayOutcome.httpError 429] ++
          RelayOutcome.success [⟨"T", "D", "L", "P"⟩] ::
          [RelayOutcome.success [⟨"T2", "D2", "L2", "P2"⟩]]) =
      (attemptItems id id ⟨"n", "https://feed", "c"⟩
          (RelayOutcome.success [⟨"T", "D", "L", "P"⟩]),
       setCachedData [] 0 "https://feed"
         (attemptItems id id ⟨"n", "https://feed", "c"⟩
           (RelayOutcome.success [⟨"T", "D", "L", "P"⟩])),
       1 + 1) :=
  ⟨⟨by decide, by decide, by decide, by decide⟩,
   relay_fallback_first_success id id ⟨"n", "https://feed", "c"⟩ 0 [] []
     [RelayOutcome.httpError 429]
     (RelayOutcome.success [⟨"T", "D", "L", "P"⟩])
     [RelayOutcome.success [⟨"T2", "D2", "L2", "P2"⟩]]
     (by decide) (by decide) (by decide) (by decide)⟩

/-! ### Claim C4 — cache TTL -/

/-- Claim C4: while the cache holds an entry for the source URL whose
age is under the 5-minute `CACHE_DURATION`, `fetchRSSFeed` returns
exactly the cached items, leaves the cache as it is, and contacts no
network endpoint (zero attempts); once the TTL has elapsed, a call
contacts the network again (at least one attempt, whether the sentinel
arXiv path or a configured relay chain). -/
theorem cache_ttl_hit_miss (clean fmt : String → String)
    (source : NewsSource) (now : Int) (cache : Cache)
    (arxivResult : List NewsItem) (o : RelayOutcome)
    (rest : List RelayOutcome) (e : CacheEntry)
    (he : cacheGet cache source.url = some e) :
    (now - e.timestamp < CACHE_DURATION →
      fetchRSSFeed clean fmt source now cache arxivResult (o :: rest) =
        (e.data, cache, 0))
    ∧ (CACHE_DURATION ≤ now - e.timestamp →
      1 ≤ (fetchRSSFeed clean fmt source now cache arxivResult
            (o :: rest)).2.2) := by
  constructor
  · intro hfresh
    unfold fetchRSSFeed getCachedData
    rw [he]
    simp [hfresh]
  · intro hstale
    unfold fetchRSSFeed getCachedData
    rw [he]
    have : ¬ (now - e.timestamp < CACHE_DURATION) := by omega
    simp only [this, if_false, reduceIte]
    by_cases hurl : source.url = "ARXIV_API_SOURCE"
    · simp [hurl]
    · simp only [hurl, if_false, reduceIte]
      exact relayChain_attempts_pos clean fmt source now cache o rest

/-- Witness for `cache_ttl_hit_miss`: a call 1 ms after the entry was
stored returns the cached item with zero attempts; a call exactly at
the 5-minute mark contacts the network. -/
theorem cache_ttl_hit_miss_witness :
    (cacheGet [("u", ⟨[mkItem "x" "2025-10-01"], 1000⟩)] "u" =
        some ⟨[mkItem "x" "2025-10-01"], 1000⟩
      ∧ (1001 : Int) - 1000 < CACHE_DURATION
      ∧ CACHE_DURATION ≤ (301000 : Int) - 1000)
    ∧ fetchRSSFeed id id ⟨"n", "u", "c"⟩ 1001
        [("u", ⟨[mkItem "x" "2025-10-01"], 1000⟩)] []
        [RelayOutcome.networkError] =
      ([mkItem "x" "2025-10-01"],
       [("u", ⟨[mkItem "x" "2025-10-01"], 1000⟩)], 0)
    ∧ 1 ≤ (fetchRSSFeed id id ⟨"n", "u", "c"⟩ 301000
        [("u", ⟨[mkItem "x" "2025-10-01"], 1000⟩)] []
        [RelayOutcome.networkError]).2.2 :=
  ⟨⟨by decide, by decide, by decide⟩,
   (cache_ttl_hit_miss id id ⟨"n", "u", "c"⟩ 1001
      [("u", ⟨[mkItem "x" "2025-10-01"], 1000⟩)] []
      RelayOutcome.networkError [] ⟨[mkItem "x" "2025-10-01"], 1000⟩
      (by decide)).1 (by decide),
   (cache_ttl_hit_miss id id ⟨"n", "u", "c"⟩ 301000
      [("u", ⟨[mkItem "x" "2025-10-01"], 1000⟩)] []
      RelayOutcome.networkError [] ⟨[mkItem "x" "2025-10-01"], 1000⟩
      (by decide)).2 (by decide)⟩

/-! ### Claim C5 — recency filter boundary -/

/-- Claim C5: `filterRecentNews` keeps exactly the items whose
`publishedAt` parses to a valid timestamp at least `now` minus 14 days:
an item dated one second before the boundary is excluded, one dated one
second after it is included, and an item with an unparseable date is
always dropped. -/
theorem recency_filter_boundary (p : String → Option Int) (now : Int) :
    (∀ (l : List NewsItem) (it : NewsItem),
      it ∈ filterRecentNews p now l ↔
        it ∈ l ∧ ∃ t, p it.pubDate = some t ∧ now - fourteenDaysMs ≤ t)
    ∧ (∀ s : String, p s = some (now - fourteenDaysMs - 1000) →
        isWithinTwoWeeks p now s = false)
    ∧ (∀ s : String, p s = some (now - fourteenDaysMs + 1000) →
        isWithinTwoWeeks p now s = true)
    ∧ (∀ s : String, p s = none → isWithinTwoWeeks p now s = false) := by
  refine ⟨?_, ?_, ?_, ?_⟩
  · intro l it
    rw [filterRecentNews, List.mem_filter]
    unfold isWithinTwoWeeks
    cases hp : p it.pubDate with
    | none => simp
    | some t => simp [hp]
  · intro s hs
    unfold isWithinTwoWeeks
    rw [hs]
    simp only [decide_eq_false_iff_not]
    omega
  · intro s hs
    unfold isWithinTwoWeeks
    rw [hs]
    simp only [decide_eq_true_eq]
    omega
  · intro s hs
    unfold isWithinTwoWeeks
    rw [hs]

/-- Witness for `recency_filter_boundary` with `parseISODate` at
`now` = 2025-10-12T00:00:00Z: the boundary is 2025-09-28T00:00:00Z;
2025-09-27T23:59:59Z is excluded, 2025-09-28T00:00:01Z is included, an
item with empty `pubDate` is dropped, and the filter keeps exactly the
in-window items of a concrete list. -/
theorem recency_filter_boundary_witness :
    (parseISODate "2025-09-27T23:59:59Z" =
        some (1760227200000 - fourteenDaysMs - 1000)
      ∧ parseISODate "2025-09-28T00:00:01Z" =
        some (1760227200000 - fourteenDaysMs + 1000)
      ∧ parseISODate "" = none)
    ∧ isWithinTwoWeeks parseISODate 1760227200000 "2025-09-27T23:59:59Z" = false
    ∧ isWithinTwoWeeks parseISODate 1760227200000 "2025-09-28T00:00:01Z" = true
    ∧ isWithinTwoWeeks parseISODate 1760227200000 "" = false
    ∧ (mkItem "new" "2025-09-28T00:00:01Z" ∈ filterRecentNews parseISODate
        1760227200000 [mkItem "old" "2025-09-27T23:59:59Z",
          mkItem "new" "2025-09-28T00:00:01Z"] ↔
        mkItem "new" "2025-09-28T00:00:01Z" ∈
          ([mkItem "old" "2025-09-27T23:59:59Z",
            mkItem "new" "2025-09-28T00:00:01Z"] : List NewsItem)
        ∧ ∃ t, parseISODate (mkItem "new" "2025-09-28T00:00:01Z").pubDate =
            some t ∧ 1760227200000 - fourteenDaysMs ≤ t) :=
  ⟨⟨by decide, by decide, by decide⟩,
   (recency_filter_boundary parseISODate 1760227200000).2.1
     "2025-09-27T23:59:59Z" (by decide),
   (recency_filter_boundary parseISODate 1760227200000).2.2.1
     "2025-09-28T00:00:01Z" (by decide),
   (recency_filter_boundary parseISODate 1760227200000).2.2.2 "" (by decide),
   (recency_filter_boundary parseISODate 1760227200000).1
     [mkItem "old" "2025-09-27T23:59:59Z", mkItem "new" "2025-09-28T00:00:01Z"]
     (mkItem "new" "2025-09-28T00:00:01Z")⟩

/-! ### Claim C7 — normalizer skip condition -/

/-- Claim C7 counterexample: an RSS entry with a non-empty title but an
empty link is skipped by `parseRSSItems`, and an arXiv entry with a
non-empty title but an empty id is skipped by `parseArxivXML` — having
one of the two fields does not suffice. -/
theorem normalizer_skip_counterexample :
    (⟨"Hello", "", "", ""⟩ : RssEntry).title ≠ ""
    ∧ parseRSSItems id id ⟨"n", "u", "c"⟩ [⟨"Hello", "", "", ""⟩] = []
    ∧ (⟨"", "Paper", "S", "P", [], []⟩ : ArxivEntry).title ≠ ""
    ∧ parseArxivXML id id id (fun s _ _ => s) (fun _ => "")
        [⟨"", "Paper", "S", "P", [], []⟩] = [] := by
  refine ⟨by decide, by decide, by decide, by decide⟩

/-- Claim C7 as amended: the normalizers skip a feed entry unless both
of its key fields are non-empty — `title` and `link` for the RSS path,
`title` and `id` for the arXiv path; every entry with both fields
non-empty contributes exactly one item, in document order. -/
theorem normalizer_requires_title_and_link :
    (∀ (clean fmt : String → String) (source : NewsSource)
        (entries : List RssEntry),
      parseRSSItems clean fmt source entries =
        (entries.filter
          (fun e => decide (e.title ≠ "") && decide (e.link ≠ ""))).map
          (rssItemOf clean fmt source))
    ∧ (∀ (clean extractId fmtA : String → String)
        (mkDesc : String → List String → List String → String)
        (mapCat : List String → String) (entries : List ArxivEntry),
      parseArxivXML clean extractId fmtA mkDesc mapCat entries =
        (entries.filter
          (fun e => decide (e.title ≠ "") && decide (e.id ≠ ""))).map
          (arxivItemOf clean extractId fmtA mkDesc mapCat)) := by
  constructor
  · intro clean fmt source entries
    induction entries with
    | nil => rfl
    | cons e es ih =>
        by_cases h : e.title ≠ "" ∧ e.link ≠ ""
        · simp [parseRSSItems, List.filter_cons, h, ih]
        · simp [parseRSSItems, List.filter_cons, h, ih]
  · intro clean extractId fmtA mkDesc mapCat entries
    induction entries with
    | nil => rfl
    | cons e es ih =>
        by_cases h : e.title ≠ "" ∧ e.id ≠ ""
        · simp [parseArxivXML, List.filter_cons, h, ih]
        · simp [parseArxivXML, List.filter_cons, h, ih]

/-! ### Claim C8 — news_update publish condition -/

/-- Claim C8 counterexample.  Cycle 1 (at wall-clock time
2025-10-12T00:01:00Z = 1760227260000) fetches an item published at
2025-10-12T00:00:00Z, publishes, and records `lastNewsUpdate` as the
wall-clock time.  Cycle 2 fetches an item published at
2025-10-12T00:00:30Z — strictly fresher than the previous snapshot's
freshest item — yet publishes nothing, because the code compares the
fresh maximum against the wall-clock time of the previous publish, not
against the previous freshest item timestamp. -/
theorem news_update_counterexample :
    performNewsUpdate parseISODate 1760227260000 0
        [mkItem "a" "2025-10-12T00:00:00Z"] = (true, 1760227260000)
    ∧ newsTimesMax parseISODate [mkItem "a" "2025-10-12T00:00:00Z"] =
        some 1760227200000
    ∧ newsTimesMax parseISODate [mkItem "b" "2025-10-12T00:00:30Z"] =
        some 1760227230000
    ∧ (1760227200000 : Int) < 1760227230000
    ∧ publishDecision parseISODate 1760227260000
        [mkItem "b" "2025-10-12T00:00:30Z"] = false := by
  refine ⟨by decide, by decide, by decide, by decide, by decide⟩

/-- Claim C8 as amended: a cycle publishes a `news_update` event if and
only if either `lastNewsUpdate` is still 0 (nothing published yet — in
particular the very first cycle always publishes, even an empty
snapshot), or the `NaN`-propagating maximum of the snapshot's parsed
item timestamps is a valid time value strictly greater than
`lastNewsUpdate` — which is the wall-clock time at which the previous
publish happened, not the previous freshest item timestamp. -/
theorem news_update_decision_characterization (p : String → Option Int)
    (lastNewsUpdate : Int) (newsItems : List NewsItem) :
    publishDecision p lastNewsUpdate newsItems = true ↔
      lastNewsUpdate = 0 ∨
        ∃ m, newsTimesMax p newsItems = some m ∧ lastNewsUpdate < m := by
  unfold publishDecision hasNewNewsItems
  cases newsItems with
  | nil =>
      simp [newsTimesMax]
  | cons a rest =>
      cases h : newsTimesMax p (a :: rest) with
      | none => simp [h]
      | some m => simp [h]; tauto

/-! ### Claim C9 — relay total failure -/

/-- Claim C9: for a non-sentinel source on a cache miss, if every relay
attempt fails or parses to zero items, `fetchRSSFeed` returns the empty
list (it is a total function of its oracles — no exception escapes),
the cache is left exactly as it was, and every relay was contacted;
moreover the relay chain leaves the cache unchanged on any
all-unproductive relay list, i.e. it only ever writes a cache entry
when some relay yields at least one parsed item. -/
theorem relay_total_failure_empty_no_cache (clean fmt : String → String)
    (source : NewsSource) (now : Int) (cache : Cache)
    (arxivResult : List NewsItem) (relays : List RelayOutcome)
    (hmiss : getCachedData cache now source.url = none)
    (hsent : source.url ≠ "ARXIV_API_SOURCE")
    (hall : ∀ o ∈ relays, attemptItems clean fmt source o = []) :
    fetchRSSFeed clean fmt source now cache arxivResult relays =
      ([], cache, relays.length)
    ∧ ∀ relays' : List RelayOutcome,
        (∀ o ∈ relays', attemptItems clean fmt source o = []) →
        (relayChain clean fmt source now cache relays').2.1 = cache := by
  constructor
  · unfold fetchRSSFeed
    rw [hmiss]
    simp only [hsent, if_false, reduceIte]
    exact relayChain_allEmpty clean fmt source now cache relays hall
  · intro relays' h'
    rw [relayChain_allEmpty clean fmt source now cache relays' h']

/-- Witness for `relay_total_failure_empty_no_cache`: both configured
relays unproductive in different ways — HTTP 500, a network error, a
well-formed but empty document, and a document whose only entry lacks a
link (zero items after normalization) — the call returns `[]` and the
(stale-entry) cache is untouched. -/
theorem relay_total_failure_empty_no_cache_witness :
    (getCachedData [("u", ⟨[mkItem "x" "2025-10-01"], 0⟩)] 600000 "u" = none
      ∧ "u" ≠ "ARXIV_API_SOURCE"
      ∧ (∀ o ∈ [RelayOutcome.httpError 500, RelayOutcome.networkError,
            RelayOutcome.success [], RelayOutcome.success [⟨"T", "D", "", "P"⟩]],
          attemptItems id id ⟨"n", "u", "c"⟩ o = []))
    ∧ fetchRSSFeed id id ⟨"n", "u", "c"⟩ 600000
        [("u", ⟨[mkItem "x" "2025-10-01"], 0⟩)] []
        [RelayOutcome.httpError 500, RelayOutcome.networkError,
          RelayOutcome.success [], RelayOutcome.success [⟨"T", "D", "", "P"⟩]] =
      ([], [("u", ⟨[mkItem "x" "2025-10-01"], 0⟩)], 4) :=
  ⟨⟨by decide, by decide, by decide⟩,
   (relay_total_failure_empty_no_cache id id ⟨"n", "u", "c"⟩ 600000
      [("u", ⟨[mkItem "x" "2025-10-01"], 0⟩)] []
      [RelayOutcome.httpError 500, RelayOutcome.networkError,
        RelayOutcome.success [], RelayOutcome.success [⟨"T", "D", "", "P"⟩]]
      (by decide) (by decide) (by decide)).1⟩

/-! ### Claim C10 — sentinel arXiv path caches unconditionally -/

/-- Claim C10: on a cache miss, the `ARXIV_API_SOURCE` sentinel path
stores whatever the arXiv client returned — here the empty list after a
total arXiv failure — unconditionally, so any call for that source
within the 5-minute TTL returns the cached empty list with zero network
attempts; the relay path by contrast never writes an empty result (it
leaves the cache unchanged whenever no relay yields items). -/
theorem arxiv_sentinel_caches_empty (clean fmt : String → String)
    (source : NewsSource) (now now2 : Int) (cache : Cache)
    (arx2 : List NewsItem) (relays relays2 : List RelayOutcome)
    (hurl : source.url = "ARXIV_API_SOURCE")
    (hmiss : getCachedData cache now source.url = none)
    (hfresh : now2 - now < CACHE_DURATION) :
    fetchRSSFeed clean fmt source now cache [] relays =
      ([], setCachedData cache now source.url [], 1)
    ∧ fetchRSSFeed clean fmt source now2
        (setCachedData cache now source.url []) arx2 relays2 =
      ([], setCachedData cache now source.url [], 0)
    ∧ ∀ relays' : List RelayOutcome,
        (∀ o ∈ relays', attemptItems clean fmt source o = []) →
        (relayChain clean fmt source now cache relays').2.1 = cache := by
  refine ⟨?_, ?_, ?_⟩
  · unfold fetchRSSFeed
    rw [hmiss]
    simp [hurl]
  · unfold fetchRSSFeed getCachedData
    rw [cacheGet_setCachedData]
    simp [hfresh]
  · intro relays' h'
    rw [relayChain_allEmpty clean fmt source now cache relays' h']

/-- Witness for `arxiv_sentinel_caches_empty`: empty cache, arXiv total
failure at time 0, then a call at time 299999 (1 ms before expiry)
returning the cached empty list with zero attempts. -/
theorem arxiv_sentinel_caches_empty_witness :
    (("ARXIV_API_SOURCE" : String) = "ARXIV_API_SOURCE"
      ∧ getCachedData [] 0 "ARXIV_API_SOURCE" = none
      ∧ (299999 : Int) - 0 < CACHE_DURATION)
    ∧ fetchRSSFeed id id ⟨"arXiv", "ARXIV_API_SOURCE", "tech"⟩ 0 [] []
        [RelayOutcome.networkError] =
      ([], setCachedData [] 0 "ARXIV_API_SOURCE" [], 1)
    ∧ fetchRSSFeed id id ⟨"arXiv", "ARXIV_API_SOURCE", "tech"⟩ 299999
        (setCachedData [] 0 "ARXIV_API_SOURCE" [])
        [mkItem "later" "2025-10-01"] [] =
      ([], setCachedData [] 0 "ARXIV_API_SOURCE" [], 0) :=
  ⟨⟨rfl, by decide, by decide⟩,
   (arxiv_sentinel_caches_empty id id ⟨"arXiv", "ARXIV_API_SOURCE", "tech"⟩
      0 299999 [] [mkItem "later" "2025-10-01"] [RelayOutcome.networkError] []
      rfl (by decide) (by decide)).1,
   (arxiv_sentinel_caches_empty id id ⟨"arXiv", "ARXIV_API_SOURCE", "tech"⟩
      0 299999 [] [mkItem "later" "2025-10-01"] [RelayOutcome.networkError] []
      rfl (by decide) (by decide)).2.1⟩
